import Mathlib

/-!
Shallow embedding of `packages/server/src/internals/procedure.ts` (the
middleware chain engine, validator adapter resolution, input/output parsing
and procedure composition of the typed RPC core).

JavaScript runtime values are embedded as `Val`; asynchronous, possibly
throwing steps are embedded as the monad `Eff`, which threads an event log
(so that execution order of middlewares and resolvers is observable) and an
exception channel carrying an arbitrary thrown `Val`.
-/

/-- A JavaScript runtime value, as far as the procedure engine inspects it.
`err code message cause` embeds an `Error` object: `code = some k` for a
classified `TRPCError` of kind `k`, `code = none` for a plain `Error`. -/
inductive Val : Type where
  | undef : Val
  | null : Val
  | bool : Bool → Val
  | num : Int → Val
  | str : String → Val
  | obj : List (String × Val) → Val
  | err : Option String → String → Option Val → Val

/-- JavaScript falsiness, as used by `!result` and `!result.ok` in `call`. -/
def Val.falsy : Val → Bool
  | .undef => true
  | .null => true
  | .bool b => !b
  | .num n => n == 0
  | .str s => s == ""
  | .obj _ => false
  | .err _ _ _ => false

/-- JavaScript property access `v[key]`: a lookup on object fields,
`undefined` on a missing field or a non-object receiver. -/
def Val.get : Val → String → Val
  | .obj fields, key =>
      match fields.lookup key with
      | some v => v
      | none => Val.undef
  | _, _ => Val.undef

/-- The effect monad of one asynchronous step: it threads an event log
(used by the development to observe execution order) and may throw a `Val`. -/
def Eff (α : Type) : Type := List String → List String × Except Val α

/-- Return a value, leaving the log unchanged. -/
def Eff.pure (a : α) : Eff α := fun log => (log, Except.ok a)

/-- Sequencing of steps; a thrown value short-circuits. -/
def Eff.bind (x : Eff α) (f : α → Eff β) : Eff β := fun log =>
  match x log with
  | (log1, Except.ok a) => f a log1
  | (log1, Except.error e) => (log1, Except.error e)

/-- Throw a value (JavaScript `throw`). -/
def Eff.throw (e : Val) : Eff α := fun log => (log, Except.error e)

/-- Append an event to the log (models an observable side effect). -/
def Eff.emit (s : String) : Eff Unit := fun log => (log ++ [s], Except.ok ())

/-- JavaScript `try`/`catch` on one step. -/
def Eff.tryCatch (x : Eff α) (handler : Val → Eff α) : Eff α := fun log =>
  match x log with
  | (log1, Except.ok a) => (log1, Except.ok a)
  | (log1, Except.error e) => handler e log1

/-- Run a step from the empty log. -/
def Eff.run (x : Eff α) : List String × Except Val α := x []

/-- The options object the resolver receives: `call` builds it as
`{ ...opts, ctx, input }`, i.e. the per-call options spread, with `ctx`
overridden by the chain context and `input` added. -/
structure ResolverOpts where
  ctx : Val
  input : Val
  type : String
  path : String
  rawInput : Val

/-- `ProcedureResolver` from the source, over the embedded value type. -/
def ProcedureResolver : Type := ResolverOpts → Eff Val

/-- The parameter bundle each middleware receives. -/
structure MiddlewareOpts where
  ctx : Val
  type : String
  path : String
  rawInput : Val
  next : Option Val → Eff Val

/-- `MiddlewareFunction` from `internals/middlewares.ts`: a middleware takes
its options (holding the `next` continuation, which accepts an optional
`{ ctx }` override, embedded as `Option Val`) and returns a value. -/
def MiddlewareFunction : Type := MiddlewareOpts → Eff Val

/-- Modelled from the spec: `middlewareMarker` from `internals/middlewares.ts`
is not under `src/`; the spec only requires it to be an opaque marker value
placed on the synthetic terminal middleware's result. -/
def middlewareMarker : Val := Val.str "middlewareMarker"

/-- A validator value (`ProcedureParser` in the source): a JavaScript value
that is either directly callable (`callable = some f`, i.e.
`typeof parser === 'function'`) or an object exposing some of the method
capabilities probed by `getParseFn`. -/
structure ProcedureParser where
  callable : Option (Val → Eff Val)
  parseAsync : Option (Val → Eff Val)
  parse : Option (Val → Eff Val)
  validateSync : Option (Val → Eff Val)
  create : Option (Val → Eff Val)

/-- `getParseFn`: probe the validator's capabilities in the source's fixed
precedence order (directly callable, `parseAsync`, `parse`, `validateSync`,
`create`); when none match, throw the plain `Error('Could not find a
validator fn')` (a synchronous throw, embedded as `Except.error`). -/
def getParseFn (parser : ProcedureParser) : Except Val (Val → Eff Val) :=
  match parser.callable with
  | some f => Except.ok f
  | none =>
    match parser.parseAsync with
    | some f => Except.ok f
    | none =>
      match parser.parse with
      | some f => Except.ok f
      | none =>
        match parser.validateSync with
        | some f => Except.ok f
        | none =>
          match parser.create with
          | some f => Except.ok f
          | none => Except.error (Val.err none "Could not find a validator fn" none)

/-- Modelled from the spec: the Safe Invoker result of `wrapCallSafe`
(`internals/wrapCallSafe.ts` is not under `src/`): a tagged
`{ ok: true, data } | { ok: false, error }` union. -/
inductive SafeResult : Type where
  | ok : Val → SafeResult
  | err : Val → SafeResult

/-- Modelled from the spec: `wrapCallSafe` (§4.2, `internals/wrapCallSafe.ts`
is not under `src/`): execute one step and never let it throw past this
boundary; any thrown value is returned in the `ok: false` branch. Side
effects performed before the throw persist. -/
def wrapCallSafe (step : Eff Val) : Eff SafeResult := fun log =>
  match step log with
  | (log1, Except.ok d) => (log1, Except.ok (SafeResult.ok d))
  | (log1, Except.error e) => (log1, Except.ok (SafeResult.err e))

/-- Modelled from the spec: `getErrorFromUnknown` (§4.3,
`internals/errors.ts` is not under `src/`): a recognized classified error
passes through unchanged (kind, message and cause preserved); any other
value is wrapped as `INTERNAL_SERVER_ERROR` with the original value as
cause and a generic message. -/
def getErrorFromUnknown (cause : Val) : Val :=
  match cause with
  | Val.err (some _) _ _ => cause
  | _ => Val.err (some "INTERNAL_SERVER_ERROR") "Internal server error" (some cause)

/-- The `Procedure` aggregate: its constructor-established fields. -/
structure Procedure where
  middlewares : List MiddlewareFunction
  resolver : ProcedureResolver
  inputParser : ProcedureParser
  parseInputFn : Val → Eff Val
  outputParser : Option ProcedureParser
  parseOutputFn : Val → Eff Val

/-- `ProcedureOptions`, the constructor's argument. -/
structure ProcedureOptions where
  middlewares : List MiddlewareFunction
  resolver : ProcedureResolver
  inputParser : ProcedureParser
  outputParser : Option ProcedureParser

/-- The `Procedure` constructor. `skipOutputValidation` is the value of the
process-wide toggle `process.env.TRPC_SKIP_OUTPUT_VALIDATION === 'true'`,
read here, once, at construction. `parseInputFn` is resolved via
`getParseFn`; `parseOutputFn` is resolved via `getParseFn` only when an
output parser is declared and the toggle is off, and is the identity
function otherwise. A throw from `getParseFn` escapes the constructor
(embedded as `Except.error`). -/
def mkProcedure (skipOutputValidation : Bool) (opts : ProcedureOptions) :
    Except Val Procedure :=
  match getParseFn opts.inputParser with
  | Except.error e => Except.error e
  | Except.ok parseInputFn =>
    match opts.outputParser, skipOutputValidation with
    | some op, false =>
      match getParseFn op with
      | Except.error e => Except.error e
      | Except.ok parseOutputFn =>
          Except.ok { middlewares := opts.middlewares, resolver := opts.resolver,
                      inputParser := opts.inputParser, parseInputFn := parseInputFn,
                      outputParser := opts.outputParser, parseOutputFn := parseOutputFn }
    | _, _ =>
          Except.ok { middlewares := opts.middlewares, resolver := opts.resolver,
                      inputParser := opts.inputParser, parseInputFn := parseInputFn,
                      outputParser := opts.outputParser,
                      parseOutputFn := fun output => Eff.pure output }

/-- `Procedure.parseInput`: run the resolved input parse function; any
thrown cause is wrapped as `BAD_REQUEST` / "Input validation failed". -/
def Procedure.parseInput (p : Procedure) (rawInput : Val) : Eff Val :=
  Eff.tryCatch (p.parseInputFn rawInput)
    (fun cause =>
      Eff.throw (Val.err (some "BAD_REQUEST") "Input validation failed" (some cause)))

/-- `Procedure.parseOutput`: run the resolved output parse function; any
thrown cause is wrapped as `INTERNAL_SERVER_ERROR` / "Output validation
failed". -/
def Procedure.parseOutput (p : Procedure) (rawOutput : Val) : Eff Val :=
  Eff.tryCatch (p.parseOutputFn rawOutput)
    (fun cause =>
      Eff.throw (Val.err (some "INTERNAL_SERVER_ERROR") "Output validation failed" (some cause)))

/-- `ProcedureCallOptions`: the per-call options. -/
structure ProcedureCallOptions where
  ctx : Val
  rawInput : Val
  path : String
  type : String

/-- The synthetic terminal middleware appended by `call`: parse the raw
input, invoke the resolver with `{ ...opts, ctx, input }`, parse the raw
output, and return `{ marker, ok: true, data, ctx }`. -/
def terminalMiddleware (p : Procedure) (opts : ProcedureCallOptions) : MiddlewareFunction :=
  fun mwOpts =>
    Eff.bind (p.parseInput opts.rawInput) (fun input =>
    Eff.bind (p.resolver { ctx := mwOpts.ctx, input := input, type := opts.type,
                           path := opts.path, rawInput := opts.rawInput }) (fun rawOutput =>
    Eff.bind (p.parseOutput rawOutput) (fun data =>
    Eff.pure (Val.obj [("marker", middlewareMarker), ("ok", Val.bool true),
                       ("data", data), ("ctx", mwOpts.ctx)]))))

/-- The `nextFns` chain of `call`, one continuation per remaining link.
`chainNext opts links nextOpts` is `nextFns[index](nextOpts)` where `links`
is the suffix of `middlewaresWithResolver` from `index`: it invokes the
link through `wrapCallSafe` with context `nextOpts ? nextOpts.ctx :
opts.ctx` and continuation `nextFns[index + 1]`, returns its value verbatim
on success, and a `{ ok: false, error: getErrorFromUnknown(...) }` object on
a throw. Past the end of the list (`nextFns[length]` in the source) the
continuation is the JavaScript value `undefined`; it is never invoked
because the terminal middleware ignores `next`. -/
def chainNext (opts : ProcedureCallOptions) :
    List MiddlewareFunction → Option Val → Eff Val
  | [], _ => Eff.pure Val.undef
  | fn :: rest, nextOpts =>
      Eff.bind
        (wrapCallSafe (fn { ctx := match nextOpts with | some c => c | none => opts.ctx,
                            type := opts.type, path := opts.path, rawInput := opts.rawInput,
                            next := chainNext opts rest }))
        (fun res =>
          match res with
          | SafeResult.ok data => Eff.pure data
          | SafeResult.err e =>
              Eff.pure (Val.obj [("ok", Val.bool false), ("error", getErrorFromUnknown e)]))

/-- `Procedure.call`: append the synthetic terminal middleware, drive the
chain from `nextFns[0]()`, then: a falsy result raises the
`INTERNAL_SERVER_ERROR` "No result from middlewares" diagnostic; a result
with falsy `ok` re-throws `result.error`; otherwise `result.data` is
returned. -/
def Procedure.call (p : Procedure) (opts : ProcedureCallOptions) : Eff Val :=
  Eff.bind (chainNext opts (p.middlewares ++ [terminalMiddleware p opts]) none)
    (fun result =>
      if result.falsy then
        Eff.throw (Val.err (some "INTERNAL_SERVER_ERROR")
          "No result from middlewares - did you forget to `return next()`?" none)
      else if (result.get "ok").falsy then
        Eff.throw (result.get "error")
      else
        Eff.pure (result.get "data"))

/-- `Procedure.inheritMiddlewares`: build a new `Procedure` through the
constructor, with the passed middlewares prepended to the existing ones and
the same resolver, input parser and output parser. The constructor re-reads
the output-skip toggle, passed here as `skipOutputValidation`. -/
def Procedure.inheritMiddlewares (skipOutputValidation : Bool) (p : Procedure)
    (middlewares : List MiddlewareFunction) : Except Val Procedure :=
  mkProcedure skipOutputValidation
    { middlewares := middlewares ++ p.middlewares, resolver := p.resolver,
      inputParser := p.inputParser, outputParser := p.outputParser }

/-- `CreateProcedureOptions`: `input` and `output` are optional. -/
structure CreateProcedureOptions where
  input : Option ProcedureParser
  output : Option ProcedureParser
  resolve : ProcedureResolver

/-- The fallback input parse function `createProcedure` installs when no
input validator is declared: `input != null` (loose inequality, true for
everything except `null` and `undefined`) throws `BAD_REQUEST` / "No input
expected", otherwise `undefined` is returned. -/
def noInputExpectedFn : Val → Eff Val := fun input =>
  match input with
  | Val.undef => Eff.pure Val.undef
  | Val.null => Eff.pure Val.undef
  | _ => Eff.throw (Val.err (some "BAD_REQUEST") "No input expected" none)

/-- `createProcedure`: use the declared input validator when present, else
the `noInputExpectedFn` callable; construct the `Procedure` with no
middlewares. -/
def createProcedure (skipOutputValidation : Bool) (opts : CreateProcedureOptions) :
    Except Val Procedure :=
  let inputParser : ProcedureParser :=
    match opts.input with
    | some p => p
    | none => { callable := some noInputExpectedFn, parseAsync := none, parse := none,
                validateSync := none, create := none }
  mkProcedure skipOutputValidation
    { middlewares := [], resolver := opts.resolve, inputParser := inputParser,
      outputParser := opts.output }

/-! ### Concrete instruments used by the theorems -/

/-- An input parser that is directly callable and returns its argument. -/
def idParser : ProcedureParser :=
  { callable := some (fun v => Eff.pure v), parseAsync := none, parse := none,
    validateSync := none, create := none }

/-- A directly callable parser applying a pure transformation `f`. -/
def mapParser (f : Val → Val) : ProcedureParser :=
  { callable := some (fun v => Eff.pure (f v)), parseAsync := none, parse := none,
    validateSync := none, create := none }

/-- A directly callable parser that always throws `t`. -/
def throwingParser (t : Val) : ProcedureParser :=
  { callable := some (fun _ => Eff.throw t), parseAsync := none, parse := none,
    validateSync := none, create := none }

/-- A directly callable parser that logs `s` and returns its argument. -/
def emitParser (s : String) : ProcedureParser :=
  { callable := some (fun v => Eff.bind (Eff.emit s) (fun _ => Eff.pure v)),
    parseAsync := none, parse := none, validateSync := none, create := none }

/-- A parser exposing none of the probed capabilities. -/
def noCapabilityParser : ProcedureParser :=
  { callable := none, parseAsync := none, parse := none, validateSync := none, create := none }

/-- A middleware that logs `s` and then returns `next()` (no context override). -/
def tagMw (s : String) : MiddlewareFunction :=
  fun o => Eff.bind (Eff.emit s) (fun _ => o.next none)

/-- A middleware that logs `s` and returns `v` directly, without calling `next`. -/
def shortCircuitMw (s : String) (v : Val) : MiddlewareFunction :=
  fun _ => Eff.bind (Eff.emit s) (fun _ => Eff.pure v)

/-- A middleware that returns `v` directly, without calling `next`. -/
def directReturnMw (v : Val) : MiddlewareFunction := fun _ => Eff.pure v

/-- A middleware that throws `e`. -/
def throwMw (e : Val) : MiddlewareFunction := fun _ => Eff.throw e

/-- A middleware calling `next({ ctx: c })`, overriding the context. -/
def overrideNextMw (c : Val) : MiddlewareFunction := fun o => o.next (some c)

/-- A middleware calling `next()` with no override. -/
def passMw : MiddlewareFunction := fun o => o.next none

/-- A middleware re-forwarding its own received context: `next({ ctx })`. -/
def forwardCtxMw : MiddlewareFunction := fun o => o.next (some o.ctx)

/-- A resolver that logs `s` and returns `out`. -/
def tagResolver (s : String) (out : Val) : ProcedureResolver :=
  fun _ => Eff.bind (Eff.emit s) (fun _ => Eff.pure out)

/-- A resolver returning a constant. -/
def constResolver (out : Val) : ProcedureResolver := fun _ => Eff.pure out

/-- A resolver that throws `e`. -/
def throwResolver (e : Val) : ProcedureResolver := fun _ => Eff.throw e

/-- A resolver returning its (parsed) input. -/
def inputResolver : ProcedureResolver := fun ro => Eff.pure ro.input

/-- A resolver returning its context. -/
def ctxResolver : ProcedureResolver := fun ro => Eff.pure ro.ctx

/-- A resolver reifying every field of the options object it receives. -/
def spreadObserverResolver : ProcedureResolver := fun ro =>
  Eff.pure (Val.obj [("ctx", ro.ctx), ("input", ro.input), ("type", Val.str ro.type),
                     ("path", Val.str ro.path), ("rawInput", ro.rawInput)])

/-- Constructor options with identity input parser and no output parser. -/
def basicOpts (mws : List MiddlewareFunction) (r : ProcedureResolver) : ProcedureOptions :=
  { middlewares := mws, resolver := r, inputParser := idParser, outputParser := none }

/-- Call options with a given raw input. -/
def callOptsRaw (raw : Val) : ProcedureCallOptions :=
  { ctx := Val.str "c0", rawInput := raw, path := "post.add", type := "mutation" }

/-- The call options used by the concrete scenarios. -/
def callOpts0 : ProcedureCallOptions := callOptsRaw (Val.num 5)

/-- Construct a procedure and run one call from the empty log: `Except.error`
when construction itself throws, otherwise the call's log and outcome. -/
def callBuilt (skipOutputValidation : Bool) (o : ProcedureOptions)
    (c : ProcedureCallOptions) : Except Val (List String × Except Val Val) :=
  Except.map (fun p => Eff.run (Procedure.call p c)) (mkProcedure skipOutputValidation o)

/-- Build a procedure via `createProcedure` and run one call from the empty log. -/
def callCreated (skipOutputValidation : Bool) (o : CreateProcedureOptions)
    (c : ProcedureCallOptions) : Except Val (List String × Except Val Val) :=
  Except.map (fun p => Eff.run (Procedure.call p c)) (createProcedure skipOutputValidation o)

/-- A well-formed `{ ok: true, data }` step result object. -/
def okResult (d : Val) : Val := Val.obj [("ok", Val.bool true), ("data", d)]

/-! ### Claim theorems -/

/-- Claim C1: middlewares execute in exactly their declared order, with the
synthetic terminal middleware (input parse, resolver, output parse) last:
with middlewares `[A, B]` and resolver `R` the observed order is A, then B,
then R; and when a middleware returns without calling `next()`, no later
middleware runs and the resolver is never invoked (the outcome is the same
for every resolver, which therefore contributes nothing to the log). -/
theorem call_middleware_order :
    callBuilt false (basicOpts [tagMw "A", tagMw "B"] (tagResolver "R" (Val.num 1))) callOpts0 =
      Except.ok (["A", "B", "R"], Except.ok (Val.num 1)) ∧
    (∀ r : ProcedureResolver,
      callBuilt false (basicOpts [tagMw "A", shortCircuitMw "B" (okResult (Val.num 42))] r)
          callOpts0 =
        Except.ok (["A", "B"], Except.ok (Val.num 42))) ∧
    (∀ r : ProcedureResolver,
      callBuilt false (basicOpts [shortCircuitMw "A" (okResult (Val.num 42)), tagMw "B"] r)
          callOpts0 =
        Except.ok (["A"], Except.ok (Val.num 42))) :=
  ⟨rfl, fun _ => rfl, fun _ => rfl⟩

/-- Claim C2: when a middleware, or the resolver, throws a value that is
already a classified error (any kind `k`, any message and cause), `call`
rejects with that very error unchanged — same kind, same message, same
cause — never re-wrapped into INTERNAL_SERVER_ERROR. -/
theorem call_preserves_classified_errors :
    ∀ (k msg : String) (cause : Option Val),
      callBuilt false
          (basicOpts [tagMw "A", throwMw (Val.err (some k) msg cause)]
            (tagResolver "R" (Val.num 1))) callOpts0 =
        Except.ok (["A"], Except.error (Val.err (some k) msg cause)) ∧
      callBuilt false
          (basicOpts [tagMw "A"] (throwResolver (Val.err (some k) msg cause))) callOpts0 =
        Except.ok (["A"], Except.error (Val.err (some k) msg cause)) :=
  fun _ _ _ => ⟨rfl, rfl⟩

/-- Claim C3: with a declared input validator, the raw input is parsed
before the resolver runs (log order `P` then `R`); when the validator
accepts, the resolver receives exactly the parsed value `f raw` (never the
raw value); when the validator throws `t`, `call` rejects with a
BAD_REQUEST-classified error whose cause is `t`. -/
theorem call_input_parsing :
    (∀ (f : Val → Val) (raw : Val),
      callBuilt false
          { middlewares := [], resolver := inputResolver, inputParser := mapParser f,
            outputParser := none } (callOptsRaw raw) =
        Except.ok ([], Except.ok (f raw))) ∧
    callBuilt false
        { middlewares := [], resolver := tagResolver "R" (Val.num 1),
          inputParser := emitParser "P", outputParser := none } callOpts0 =
      Except.ok (["P", "R"], Except.ok (Val.num 1)) ∧
    (∀ t : Val,
      callBuilt false
          { middlewares := [], resolver := inputResolver, inputParser := throwingParser t,
            outputParser := none } callOpts0 =
        Except.ok ([], Except.error
          (Val.err (some "BAD_REQUEST") "Input validation failed" (some t)))) :=
  ⟨fun _ _ => rfl, rfl, fun _ => rfl⟩

/-- Claim C8: the context a link receives is the override only when the
immediately preceding middleware passed one to `next`: the terminal link
directly after the overriding middleware sees the override (first
conjunct); after one intermediate middleware that calls `next()` plain, the
original call context `c0` flows — not the earlier override (second
conjunct); the override persists only if each middleware re-forwards it
(third conjunct). -/
theorem call_ctx_override_single_hop :
    callBuilt false (basicOpts [overrideNextMw (Val.str "c1")] ctxResolver) callOpts0 =
      Except.ok ([], Except.ok (Val.str "c1")) ∧
    callBuilt false (basicOpts [overrideNextMw (Val.str "c1"), passMw] ctxResolver) callOpts0 =
      Except.ok ([], Except.ok (Val.str "c0")) ∧
    callBuilt false
        (basicOpts [overrideNextMw (Val.str "c1"), forwardCtxMw] ctxResolver) callOpts0 =
      Except.ok ([], Except.ok (Val.str "c1")) :=
  ⟨rfl, rfl, rfl⟩

/-- Claim C9: a middleware that omits `next()` and returns a value directly
has that value taken verbatim as the chain's result: a well-formed
`{ ok: true, data }` value yields its `data` as the call's output, and any
falsy value (`undefined`, `0`) makes `call` reject with
INTERNAL_SERVER_ERROR and the "did you forget to `return next()`?"
diagnostic — in all three scenarios, for every resolver (which never
runs). -/
theorem call_direct_return :
    ∀ r : ProcedureResolver,
      callBuilt false (basicOpts [directReturnMw Val.undef] r) callOpts0 =
        Except.ok ([], Except.error (Val.err (some "INTERNAL_SERVER_ERROR")
          "No result from middlewares - did you forget to `return next()`?" none)) ∧
      callBuilt false (basicOpts [directReturnMw (Val.num 0)] r) callOpts0 =
        Except.ok ([], Except.error (Val.err (some "INTERNAL_SERVER_ERROR")
          "No result from middlewares - did you forget to `return next()`?" none)) ∧
      callBuilt false (basicOpts [directReturnMw (okResult (Val.num 7))] r) callOpts0 =
        Except.ok ([], Except.ok (Val.num 7)) :=
  fun _ => ⟨rfl, rfl, rfl⟩

/-- Claim C10: the resolver is invoked with the whole per-call options
object spread into its argument: besides `ctx`, `input` and `type` it also
receives the call's `path` and the raw, pre-validation `rawInput` — even
when the input parser `f` has replaced `input` by the parsed value
`f c.rawInput`, as the reifying resolver observes for every call options
record `c`. -/
theorem call_resolver_receives_spread :
    ∀ (f : Val → Val) (c : ProcedureCallOptions),
      callBuilt false
          { middlewares := [], resolver := spreadObserverResolver, inputParser := mapParser f,
            outputParser := none } c =
        Except.ok ([], Except.ok (Val.obj
          [("ctx", c.ctx), ("input", f c.rawInput), ("type", Val.str c.type),
           ("path", Val.str c.path), ("rawInput", c.rawInput)])) :=
  fun _ _ => rfl

/-- Claim C4: when the output validator throws `t` on the resolver's return
value, `call` rejects with kind INTERNAL_SERVER_ERROR and cause `t` (first
conjunct); when the procedure is constructed with the process-wide skip
toggle active, the effective output parse function stored at construction
is the identity (third conjunct), so any resolver output passes through
unchanged even though the declared validator rejects everything (second
conjunct); with no output parser declared the output likewise passes
through (fourth conjunct). -/
theorem call_output_validation :
    (∀ (t out : Val),
      callBuilt false
          { middlewares := [], resolver := constResolver out, inputParser := idParser,
            outputParser := some (throwingParser t) } callOpts0 =
        Except.ok ([], Except.error
          (Val.err (some "INTERNAL_SERVER_ERROR") "Output validation failed" (some t)))) ∧
    (∀ (t out : Val),
      callBuilt true
          { middlewares := [], resolver := constResolver out, inputParser := idParser,
            outputParser := some (throwingParser t) } callOpts0 =
        Except.ok ([], Except.ok out)) ∧
    (∀ t : Val,
      Except.map (fun p => p.parseOutputFn)
          (mkProcedure true
            { middlewares := [], resolver := constResolver Val.undef, inputParser := idParser,
              outputParser := some (throwingParser t) }) =
        Except.ok (fun output => Eff.pure output)) ∧
    (∀ out : Val,
      callBuilt false
          { middlewares := [], resolver := constResolver out, inputParser := idParser,
            outputParser := none } callOpts0 =
        Except.ok ([], Except.ok out)) :=
  ⟨fun _ _ => rfl, fun _ _ => rfl, fun _ => rfl, fun _ => rfl⟩

/-- Options for a procedure declared without an input validator. -/
def noInputCreateOpts : CreateProcedureOptions :=
  { input := none, output := none, resolve := inputResolver }

/-- The error a call rejects with when non-empty input reaches an input-less
procedure: the fallback's BAD_REQUEST "No input expected" throw, wrapped by
`parseInput` as BAD_REQUEST "Input validation failed" with the former as
cause. -/
def noInputExpectedErr : Val :=
  Val.err (some "BAD_REQUEST") "Input validation failed"
    (some (Val.err (some "BAD_REQUEST") "No input expected" none))

/-- Claim C5: a procedure created without an input validator succeeds on
`rawInput = undefined` and on `rawInput = null`, the resolver receiving
input `undefined`; for every other raw input value the call rejects with a
classified error of kind BAD_REQUEST. -/
theorem createProcedure_no_input :
    callCreated false noInputCreateOpts (callOptsRaw Val.undef) =
      Except.ok ([], Except.ok Val.undef) ∧
    callCreated false noInputCreateOpts (callOptsRaw Val.null) =
      Except.ok ([], Except.ok Val.undef) ∧
    (∀ v : Val, v ≠ Val.undef → v ≠ Val.null →
      callCreated false noInputCreateOpts (callOptsRaw v) =
        Except.ok ([], Except.error noInputExpectedErr)) := by
  refine ⟨rfl, rfl, ?_⟩
  intro v h1 h2
  cases v with
  | undef => exact absurd rfl h1
  | null => exact absurd rfl h2
  | bool b => rfl
  | num n => rfl
  | str s => rfl
  | obj fields => rfl
  | err c m cc => rfl

/-- Witness for C5: the concrete non-empty raw input `{ a: 1 }` is neither
`undefined` nor `null`, and the call rejects with the BAD_REQUEST error. -/
theorem createProcedure_no_input_witness :
    Val.obj [("a", Val.num 1)] ≠ Val.undef ∧
    Val.obj [("a", Val.num 1)] ≠ Val.null ∧
    callCreated false noInputCreateOpts (callOptsRaw (Val.obj [("a", Val.num 1)])) =
      Except.ok ([], Except.error noInputExpectedErr) :=
  ⟨fun h => Val.noConfusion h, fun h => Val.noConfusion h,
   createProcedure_no_input.2.2 (Val.obj [("a", Val.num 1)])
     (fun h => Val.noConfusion h) (fun h => Val.noConfusion h)⟩

/-- Any successfully constructed procedure carries the constructor options'
middlewares, resolver, input parser and output parser verbatim. -/
theorem mkProcedure_fields (skip : Bool) (opts : ProcedureOptions) (p : Procedure)
    (h : mkProcedure skip opts = Except.ok p) :
    p.middlewares = opts.middlewares ∧ p.resolver = opts.resolver ∧
    p.inputParser = opts.inputParser ∧ p.outputParser = opts.outputParser := by
  unfold mkProcedure at h
  split at h
  · exact Except.noConfusion h
  · split at h
    · split at h
      · exact Except.noConfusion h
      · injection h with h2
        subst h2
        exact ⟨rfl, rfl, rfl, rfl⟩
    · injection h with h2
      subst h2
      exact ⟨rfl, rfl, rfl, rfl⟩

/-- Constructor options of the base procedure used in the composition demo:
one declared middleware `Y`, resolver `R`. -/
def baseOptsY : ProcedureOptions :=
  { middlewares := [tagMw "Y"], resolver := tagResolver "R" (Val.num 1),
    inputParser := idParser, outputParser := none }

/-- Build the base procedure, derive it with prepended middleware `X`, and
call the derived procedure. -/
def inheritDemoDerived : Except Val (List String × Except Val Val) :=
  Except.bind (mkProcedure false baseOptsY) (fun p =>
    Except.map (fun q => Eff.run (Procedure.call q callOpts0))
      (Procedure.inheritMiddlewares false p [tagMw "X"]))

/-- Build the base procedure, derive it with prepended middleware `X`
(without using the result), and call the original procedure. -/
def inheritDemoOriginal : Except Val (List String × Except Val Val) :=
  Except.bind (mkProcedure false baseOptsY) (fun p =>
    Except.map (fun _ => Eff.run (Procedure.call p callOpts0))
      (Procedure.inheritMiddlewares false p [tagMw "X"]))

/-- Claim C6: `inheritMiddlewares` returns a new `Procedure` whose
middleware list is the additional middlewares followed by the existing ones
and which shares the source's resolver, input parser and output parser
(first conjunct, for every source procedure); concretely, deriving a
procedure with declared middleware `Y` by prepending `X` yields execution
order X, Y, R (second conjunct), while calling the original — after the
derivation — still executes only Y then R, the source being unchanged
(third conjunct). -/
theorem inheritMiddlewares_spec :
    (∀ (skip : Bool) (p : Procedure) (mws : List MiddlewareFunction) (q : Procedure),
      Procedure.inheritMiddlewares skip p mws = Except.ok q →
        q.middlewares = mws ++ p.middlewares ∧ q.resolver = p.resolver ∧
        q.inputParser = p.inputParser ∧ q.outputParser = p.outputParser) ∧
    inheritDemoDerived = Except.ok (["X", "Y", "R"], Except.ok (Val.num 1)) ∧
    inheritDemoOriginal = Except.ok (["Y", "R"], Except.ok (Val.num 1)) := by
  refine ⟨?_, rfl, rfl⟩
  intro skip p mws q h
  exact mkProcedure_fields skip _ q h

/-- A concrete source procedure for the C6 witness. -/
def pW : Procedure :=
  { middlewares := [], resolver := fun _ => Eff.pure (Val.num 1),
    inputParser := idParser, parseInputFn := fun v => Eff.pure v,
    outputParser := none, parseOutputFn := fun v => Eff.pure v }

/-- The procedure derived from `pW` by prepending `[tagMw "X"]`. -/
def qW : Procedure :=
  { middlewares := [tagMw "X"], resolver := fun _ => Eff.pure (Val.num 1),
    inputParser := idParser, parseInputFn := fun v => Eff.pure v,
    outputParser := none, parseOutputFn := fun v => Eff.pure v }

/-- Witness for C6: deriving the concrete `pW` with prepended `[tagMw "X"]`
succeeds and yields `qW`, whose fields are as the claim states. -/
theorem inheritMiddlewares_spec_witness :
    Procedure.inheritMiddlewares false pW [tagMw "X"] = Except.ok qW ∧
    (qW.middlewares = [tagMw "X"] ++ pW.middlewares ∧ qW.resolver = pW.resolver ∧
     qW.inputParser = pW.inputParser ∧ qW.outputParser = pW.outputParser) :=
  ⟨rfl, inheritMiddlewares_spec.1 false pW [tagMw "X"] qW rfl⟩

/-- Constructor options whose input validator exposes none of the probed
capabilities. -/
def badConstructOpts : ProcedureOptions :=
  { middlewares := [], resolver := fun _ => Eff.pure Val.undef,
    inputParser := noCapabilityParser, outputParser := none }

/-- The kind of the classified error a construction attempt threw, if the
thrown value is a classified error at all. -/
def constructionFailureKind : Except Val Procedure → Option String
  | Except.error (Val.err (some c) _ _) => some c
  | _ => none

/-- Counterexample to C7 as stated: constructing a procedure from a
validator matching no capability shape does fail immediately, but with the
plain `Error('Could not find a validator fn')` — an unclassified error
carrying no kind at all, in particular not kind INTERNAL_SERVER_ERROR. -/
theorem getParseFn_no_kind_counterexample :
    mkProcedure false badConstructOpts =
      Except.error (Val.err none "Could not find a validator fn" none) ∧
    constructionFailureKind (mkProcedure false badConstructOpts) = none :=
  ⟨rfl, rfl⟩

/-- Claim C7 as amended: `getParseFn` probes the capabilities in the fixed
precedence order — directly callable, then `parseAsync`, then `parse`, then
`validateSync`, then `create` — and when none match, procedure construction
fails immediately (at construction time, not per call) with the plain
configuration error "Could not find a validator fn", which carries no error
kind. -/
theorem getParseFn_precedence :
    ∀ (f1 f2 f3 f4 f5 : Val → Eff Val),
      getParseFn { callable := some f1, parseAsync := some f2, parse := some f3,
                   validateSync := some f4, create := some f5 } = Except.ok f1 ∧
      getParseFn { callable := none, parseAsync := some f2, parse := some f3,
                   validateSync := some f4, create := some f5 } = Except.ok f2 ∧
      getParseFn { callable := none, parseAsync := none, parse := some f3,
                   validateSync := some f4, create := some f5 } = Except.ok f3 ∧
      getParseFn { callable := none, parseAsync := none, parse := none,
                   validateSync := some f4, create := some f5 } = Except.ok f4 ∧
      getParseFn { callable := none, parseAsync := none, parse := none,
                   validateSync := none, create := some f5 } = Except.ok f5 ∧
      getParseFn noCapabilityParser =
        Except.error (Val.err none "Could not find a validator fn" none) ∧
      mkProcedure false badConstructOpts =
        Except.error (Val.err none "Could not find a validator fn" none) :=
  fun _ _ _ _ _ => ⟨rfl, rfl, rfl, rfl, rfl, rfl, rfl⟩
